import Mathlib

/-!
Verification development for the asbplayer-linux extension core:
the background command-dispatch bus (`src/extension/src/entrypoints/background.ts`),
the native-audio-recorder client (`src/extension/src/services/native-audio-recorder.ts`),
and the sidebar service (`src/extension/src/services/sidebar-service.ts`),
shallowly embedded in Lean 4.
-/

namespace Asb

/-! ## Command dispatch bus (background.ts, browser.runtime.onMessage listener)

A `CommandHandler` in background.ts has a `sender` field that is either a single
string or an array of strings, a `command` field that is a string or `null`
(wildcard), and a `handle` method.  The `handle` method may return `true`
(meaning it will respond asynchronously) or anything else (treated as a
synchronous completion), and it may also throw.  We model the outcome of one
invocation as `Except String Bool`: `.error m` is a thrown exception, `.ok b`
is a normal return with `b = true` meaning "will respond asynchronously". -/

/-- Model of the `sender` field of a handler registration: a single origin tag
or a list of origin tags. -/
inductive SenderSpec where
  | single (s : String)
  | multiple (ss : List String)
deriving DecidableEq, Repr

/-- Embeds the sender test in the listener:
`(typeof handler.sender === 'string' && handler.sender === request.sender) ||
 (typeof handler.sender === 'object' && handler.sender.includes(request.sender))`. -/
def senderAccepts : SenderSpec → String → Bool
  | .single s, x => s == x
  | .multiple ss, x => ss.contains x

/-- Model of one entry of the `handlers` array in background.ts.  `command = none`
models `handler.command === null` (the wildcard).  `action` is the outcome the
`handle` call would produce for the envelope under consideration. -/
structure CommandHandler where
  name : String
  sender : SenderSpec
  command : Option String
  action : Except String Bool
deriving Repr

/-- Model of an inbound `Command<Message>` envelope: `request.sender` and
`request.message.command`. -/
structure Envelope where
  sender : String
  command : String
deriving DecidableEq, Repr

/-- Embeds the match test of the listener loop:
`handler.sender` accepts `request.sender`, and
`handler.command === null || handler.command === request.message.command`. -/
def matchesB (h : CommandHandler) (e : Envelope) : Bool :=
  senderAccepts h.sender e.sender && (h.command == none || h.command == some e.command)

/-- Embeds the `for (const handler of handlers)` loop of the
`browser.runtime.onMessage` listener in background.ts.  Scanning the handler
list in order, the first handler whose sender and command tests pass has its
`handle` method invoked; if the invocation throws, the exception propagates out
of the listener (there is no try/catch in the loop); if it returns `true` the
listener returns `true`; otherwise the loop `break`s and the listener returns
`undefined` (modelled `.ok false`).  The first component is the list of names
of handlers actually invoked, in invocation order. -/
def dispatch : List CommandHandler → Envelope → List String × Except String Bool
  | [], _ => ([], .ok false)
  | h :: rest, e =>
    if matchesB h e then
      ([h.name], h.action)
    else
      dispatch rest e

/-! ## Native audio recorder client (native-audio-recorder.ts)

`sendMessage` opens a fresh native-messaging port per call, arms a 60000 ms
timer, and settles the returned promise from the port's events.  We embed one
call as a function of the scenario: whether `browser.runtime.connectNative`
threw, and the timed sequence of port events that would reach the listeners.
A JavaScript promise settles at most once, so the embedding returns the first
settlement, or `pending` if nothing ever settles the promise. -/

/-- Wire-level response of the native host for a `record` request
(`NativeRecordingResponse` in native-audio-recorder.ts). -/
structure NativeRecordingResponse where
  success : Bool
  audioBase64 : Option String
  format : Option String
  error : Option String
deriving DecidableEq, Repr

/-- Wire-level response of the native host for a `ping` request
(`NativePingResponse` in native-audio-recorder.ts). -/
structure NativePingResponse where
  success : Bool
  message : Option String
  audioSystem : Option String
  error : Option String
deriving DecidableEq, Repr

/-- Message sent to the native host: `{command, duration?, encodeMp3?}`. -/
structure RequestMessage where
  command : String
  duration : Option Nat
  encodeMp3 : Option Bool
deriving DecidableEq, Repr

/-- Outcome of `browser.runtime.connectNative`: it returned a port, or threw. -/
inductive ConnectResult where
  | ok
  | threw (e : String)
deriving DecidableEq, Repr

/-- An event delivered to the port listeners registered by `sendMessage`:
either `onMessage` with a response payload, or `onDisconnect` carrying
`browser.runtime.lastError` (`none` when no platform error is attached). -/
inductive PortEvent (α : Type) where
  | message (response : α)
  | disconnect (error : Option String)
deriving DecidableEq, Repr

/-- Fate of a JavaScript promise in our timed model: settled at a given time
with a resolution or a rejection (`Except.error` is a rejection carrying the
`Error` message), or never settled. -/
inductive PromiseOutcome (α : Type) where
  | settled (time : Nat) (result : Except String α)
  | pending
deriving Repr

/-- A port scenario is well formed when no event follows a disconnect event
(a disconnected port fires no further events). -/
def noEventAfterDisconnect {α : Type} : List (Nat × PortEvent α) → Bool
  | [] => true
  | (_, .disconnect _) :: rest => rest.isEmpty
  | (_, .message _) :: rest => noEventAfterDisconnect rest

/-- Scans the timed port events, tracking whether the 60000 ms timer is still
armed.  Mirrors the listener bodies in `sendMessage`: `onMessage` clears the
timer and resolves; `onDisconnect` clears the timer and rejects with
`Native host error: <message>` when a platform error is attached, and does
nothing further otherwise; the timer, when it fires first, rejects with
`Native host response timeout`.  When two settlements would coincide in time,
the port event is taken to win the tick (JavaScript task ordering decides; no
claim depends on the tie). -/
def settleFromEvents {α : Type} : List (Nat × PortEvent α) → Bool → PromiseOutcome α
  | [], timerArmed =>
    if timerArmed then .settled 60000 (.error "Native host response timeout") else .pending
  | (te, ev) :: rest, timerArmed =>
    if timerArmed ∧ 60000 < te then
      .settled 60000 (.error "Native host response timeout")
    else
      match ev with
      | .message r => .settled te (.ok r)
      | .disconnect (some e) => .settled te (.error ("Native host error: " ++ e))
      | .disconnect none => settleFromEvents rest false

/-- Embeds `NativeAudioRecorder.sendMessage`.  If `connectNative` threw, the
promise rejects immediately with `Failed to connect to native host: <error>`;
otherwise the 60000 ms timer is armed and the port events decide the
settlement.  The outbound `message` does not influence client-side settlement
(the host's behaviour is part of the scenario), but is kept to mirror the
source signature. -/
def sendMessage {α : Type} (_message : RequestMessage) (conn : ConnectResult)
    (events : List (Nat × PortEvent α)) : PromiseOutcome α :=
  match conn with
  | .threw e => .settled 0 (.error ("Failed to connect to native host: " ++ e))
  | .ok => settleFromEvents events true

/-- Embeds `NativeAudioRecorder.ping`: `sendMessage` with `{command: 'ping'}`. -/
def ping (conn : ConnectResult) (events : List (Nat × PortEvent NativePingResponse)) :
    PromiseOutcome NativePingResponse :=
  sendMessage ⟨"ping", none, none⟩ conn events

/-- Effective race timeout computed by `recordAudio`:
`Math.min(durationMs + 5000, 30000)`. -/
def effectiveTimeout (durationMs : Nat) : Nat :=
  min (durationMs + 5000) 30000

/-- The value the race-timer promise resolves with in `recordAudio`. -/
def timedOutResponse : NativeRecordingResponse :=
  { success := false, audioBase64 := none, format := none, error := some "Recording timed out" }

/-- Embeds `NativeAudioRecorder.recordAudio`: races the `sendMessage` promise
for `{command:'record', duration, encodeMp3}` against a timer that resolves
`timedOutResponse` at `effectiveTimeout durationMs`.  `Promise.race` adopts
whichever settles first, resolution or rejection alike; if the backend promise
never settles, the timer wins.  At a tie the backend is taken to win the tick
(no claim depends on the tie). -/
def recordAudio (durationMs : Nat) (encodeMp3 : Bool) (conn : ConnectResult)
    (events : List (Nat × PortEvent NativeRecordingResponse)) :
    PromiseOutcome NativeRecordingResponse :=
  let timeout := effectiveTimeout durationMs
  match sendMessage ⟨"record", some durationMs, some encodeMp3⟩ conn events with
  | .settled ts r => if timeout < ts then .settled timeout (.ok timedOutResponse) else .settled ts r
  | .pending => .settled timeout (.ok timedOutResponse)

/-! ## Recorder instance state

`NativeAudioRecorder` keeps one mutable field relevant to the claims:
`_isAvailable : boolean | null`.  We track it together with two observation
counters: `probes` counts completed availability probes (`ping` sent from
`checkAvailability`), and `connections` counts every `connectNative` attempt
(each `sendMessage` call makes exactly one).  The counters are ghost state
recording the I/O the methods perform. -/

/-- State of one `NativeAudioRecorder` instance, with ghost counters for the
I/O performed. -/
structure RecorderState where
  isAvailable : Option Bool
  probes : Nat
  connections : Nat
deriving DecidableEq, Repr

/-- State of a freshly constructed `NativeAudioRecorder`
(`_isAvailable = null`, no I/O performed yet). -/
def freshRecorder : RecorderState :=
  { isAvailable := none, probes := 0, connections := 0 }

/-- Embeds `NativeAudioRecorder.checkAvailability` for one completed call.
If `_isAvailable !== null` the cached boolean is returned with no I/O.
Otherwise one probe (a `ping` over a new connection) is performed; `pingResult`
is the settlement of that ping promise: a resolved response caches
`response.success`, a rejection is caught and caches `false`. -/
def checkAvailability (s : RecorderState) (pingResult : Except String NativePingResponse) :
    RecorderState × Bool :=
  match s.isAvailable with
  | some b => (s, b)
  | none =>
    let probed := { s with probes := s.probes + 1, connections := s.connections + 1 }
    match pingResult with
    | .ok r => ({ probed with isAvailable := some r.success }, r.success)
    | .error _ => ({ probed with isAvailable := some false }, false)

/-- Runs a sequence of completed `checkAvailability` calls, threading the
instance state and collecting the returned booleans. -/
def runChecks (s : RecorderState) : List (Except String NativePingResponse) →
    RecorderState × List Bool
  | [] => (s, [])
  | p :: ps =>
    let (s1, b) := checkAvailability s p
    let (s2, bs) := runChecks s1 ps
    (s2, b :: bs)

/-- Embeds one `recordAudio` call at the instance level: the method reads no
instance state (in particular it does not consult `_isAvailable`) and always
calls `sendMessage`, which makes exactly one `connectNative` attempt; the
result is the race of §`recordAudio`. -/
def recordAudioCall (s : RecorderState) (durationMs : Nat) (encodeMp3 : Bool)
    (conn : ConnectResult) (events : List (Nat × PortEvent NativeRecordingResponse)) :
    RecorderState × PromiseOutcome NativeRecordingResponse :=
  ({ s with connections := s.connections + 1 }, recordAudio durationMs encodeMp3 conn events)

/-! ## Module-level singleton (getNativeAudioRecorder)

The module keeps `let nativeAudioRecorder: NativeAudioRecorder | null = null`
and `getNativeAudioRecorder` constructs an instance on first call and returns
the stored one afterwards.  Object identity is modelled by a creation counter:
each construction yields a fresh identifier. -/

/-- Module-level state: the stored singleton (identified by its creation id)
and the next fresh id. -/
structure ModuleState where
  stored : Option Nat
  nextId : Nat
deriving DecidableEq, Repr

/-- Embeds `getNativeAudioRecorder`: on first call constructs a new instance
and stores it, afterwards returns the stored instance. -/
def getNativeAudioRecorder (g : ModuleState) : ModuleState × Nat :=
  match g.stored with
  | some r => (g, r)
  | none => ({ stored := some g.nextId, nextId := g.nextId + 1 }, g.nextId)

/-- Runs `n` successive `getNativeAudioRecorder` calls, collecting the returned
instance identifiers. -/
def runGets (g : ModuleState) : Nat → ModuleState × List Nat
  | 0 => (g, [])
  | n + 1 =>
    let (g1, r) := getNativeAudioRecorder g
    let (g2, rs) := runGets g1 n
    (g2, r :: rs)

/-! ## Sidebar service (sidebar-service.ts)

`SidebarService.toggle` and `SidebarService.isOpen` branch on `isFirefoxBuild`.
We record the platform API calls each method makes alongside its outcome. -/

/-- Platform API invocations the sidebar service can make. -/
inductive SidebarPlatformCall where
  | sidebarActionToggle
  | sidebarActionIsOpen
deriving DecidableEq, Repr

/-- Embeds `SidebarService.toggle`: Firefox delegates to
`browser.sidebarAction.toggle()`; Chrome throws
`Error('Chrome toggle should be handled by toggle-side-panel-handler')`. -/
def SidebarService.toggle (isFirefoxBuild : Bool) :
    List SidebarPlatformCall × Except String Unit :=
  if isFirefoxBuild then
    ([.sidebarActionToggle], .ok ())
  else
    ([], .error "Chrome toggle should be handled by toggle-side-panel-handler")

/-- Embeds `SidebarService.isOpen`: Firefox delegates to
`browser.sidebarAction.isOpen({})`, whose answer is `panelActuallyOpen`;
Chrome returns `false` without consulting the platform. -/
def SidebarService.isOpen (isFirefoxBuild : Bool) (panelActuallyOpen : Bool) :
    List SidebarPlatformCall × Bool :=
  if isFirefoxBuild then
    ([.sidebarActionIsOpen], panelActuallyOpen)
  else
    ([], false)

/-! ## Theorems -/

/-- Claim C2: for every inbound command envelope, dispatch invokes at most one
handler.  Registrations are scanned in list (priority) order; a registration
matches if its accepted-origin set contains the envelope's origin and its
accepted command is the wildcard or equals the envelope's command name; the
list of invoked handlers is exactly the first matching registration (empty when
none matches), so on a match that handler is invoked exactly once, scanning
stops, and no later handler is invoked for the same envelope. -/
theorem dispatch_invokes_first_match (hs : List CommandHandler) (e : Envelope) :
    (dispatch hs e).1 = ((hs.find? (fun h => matchesB h e)).map CommandHandler.name).toList ∧
    (dispatch hs e).1.length ≤ 1 := by
  induction hs with
  | nil => simp [dispatch]
  | cons h rest ih =>
    by_cases hm : matchesB h e
    · simp [dispatch, hm]
    · simpa [dispatch, hm] using ih

/-- Claim C4, counterexample: an exception thrown by the invoked handler is
NOT caught at the dispatch-loop boundary; for a concrete matching handler whose
`handle` throws, the listener's outcome is the uncaught exception itself, not a
caught/logged conversion to a normal terminal outcome. -/
theorem dispatch_exception_escapes_counterexample :
    (dispatch [{ name := "ThrowingHandler", sender := .single "asbplayer-video",
                 command := none, action := .error "boom" }]
      { sender := "asbplayer-video", command := "record-media" }).2 = .error "boom" := rfl

/-- Claim C4, amended: the dispatch loop in background.ts has no try/catch, so
an exception raised inside the first matching handler's action propagates out
of the listener unchanged (it is neither caught, nor logged, nor converted to a
terminal outcome by the Bus).  Each envelope is dispatched by an independent
listener invocation, so a throw while handling one envelope still does not
affect the dispatch of a later envelope. -/
theorem dispatch_exception_propagates (hs : List CommandHandler) (e : Envelope)
    (h : CommandHandler) (m : String)
    (hfind : hs.find? (fun h => matchesB h e) = some h) (hact : h.action = .error m) :
    (dispatch hs e).2 = .error m := by
  induction hs with
  | nil => simp at hfind
  | cons h0 rest ih =>
    rw [List.find?_cons] at hfind
    by_cases hm : matchesB h0 e
    · simp only [hm, Option.some.injEq] at hfind
      subst hfind
      simp [dispatch, hm, hact]
    · simp only [hm] at hfind
      simpa [dispatch, hm] using ih hfind

/-- Claim C4, witness for the amended theorem at a concrete handler list and
envelope. -/
theorem dispatch_exception_propagates_witness :
    (dispatch [{ name := "FailingHandler", sender := .multiple ["asbplayer-video", "asbplayerv2"],
                 command := some "sync", action := .error "oops" }]
      { sender := "asbplayerv2", command := "sync" }).2 = .error "oops" :=
  dispatch_exception_propagates _ _
    { name := "FailingHandler", sender := .multiple ["asbplayer-video", "asbplayerv2"],
      command := some "sync", action := .error "oops" } "oops" (by rfl) (by rfl)

/-- Claim C1: a record call with duration `durationMs` computes the effective
timeout `min (durationMs + 5000) 30000` and races it against the record call;
whenever the race timer fires strictly before the backend promise settles, the
caller receives exactly the structured result
`success := false, error := some "Recording timed out"` at the race-timer
time, regardless of the backend settlement. -/
theorem recordAudio_timeout_race (durationMs : Nat) (encodeMp3 : Bool)
    (conn : ConnectResult) (events : List (Nat × PortEvent NativeRecordingResponse))
    (ts : Nat) (r : Except String NativeRecordingResponse)
    (hsend : sendMessage ⟨"record", some durationMs, some encodeMp3⟩ conn events = .settled ts r)
    (hlt : effectiveTimeout durationMs < ts) :
    effectiveTimeout durationMs = min (durationMs + 5000) 30000 ∧
    recordAudio durationMs encodeMp3 conn events =
      .settled (effectiveTimeout durationMs)
        (.ok { success := false, audioBase64 := none, format := none,
               error := some "Recording timed out" }) := by
  refine ⟨rfl, ?_⟩
  unfold recordAudio
  rw [hsend]
  simp [hlt, timedOutResponse]

/-- Claim C1, witness: durationMs = 28000 gives effective timeout
`min 33000 30000 = 30000`; a backend reply arriving at 31000 ms loses the race
and the caller gets the timeout result at 30000 ms, not 31000 ms. -/
theorem recordAudio_timeout_race_witness :
    effectiveTimeout 28000 = min (28000 + 5000) 30000 ∧
    recordAudio 28000 false .ok
        [(31000, .message { success := true, audioBase64 := some "QUJD",
                            format := some "wav", error := none })] =
      .settled (effectiveTimeout 28000)
        (.ok { success := false, audioBase64 := none, format := none,
               error := some "Recording timed out" }) :=
  recordAudio_timeout_race 28000 false .ok
    [(31000, .message { success := true, audioBase64 := some "QUJD",
                        format := some "wav", error := none })]
    31000 (.ok { success := true, audioBase64 := some "QUJD", format := some "wav", error := none })
    (by rfl) (by decide)

/-- Claim C6, counterexample: the promise returned by `recordAudio` CAN
reject.  When `connectNative` throws, `sendMessage` rejects immediately and
`Promise.race` adopts that rejection before the race timer fires, so the
caller of `recordAudio` sees a rejected promise, not a structured
`success := false` result. -/
theorem recordAudio_rejects_counterexample :
    recordAudio 5000 false (.threw "Specified native messaging host not found.") [] =
      .settled 0 (.error
        "Failed to connect to native host: Specified native messaging host not found.") := rfl

/-- Claim C6, amended: native-host-reported failures and race-timer timeouts
are returned as structured results, but a backend rejection (connection
failure, transport error reported on disconnect, or the 60-second hard
timeout) that settles no later than the race timer propagates through
`Promise.race` as a rejection of the promise returned by `recordAudio`: the
promise does not never-reject, so callers cannot rely on branching on
`success` alone. -/
theorem recordAudio_rejection_passthrough (durationMs : Nat) (encodeMp3 : Bool)
    (conn : ConnectResult) (events : List (Nat × PortEvent NativeRecordingResponse))
    (ts : Nat) (m : String)
    (hsend : sendMessage ⟨"record", some durationMs, some encodeMp3⟩ conn events =
      .settled ts (.error m))
    (hle : ts ≤ effectiveTimeout durationMs) :
    recordAudio durationMs encodeMp3 conn events = .settled ts (.error m) := by
  unfold recordAudio
  rw [hsend]
  simp [Nat.not_lt.mpr hle]

/-- Claim C6, witness for the amended theorem: a connection failure at time 0
propagates out of `recordAudio` as a rejection. -/
theorem recordAudio_rejection_passthrough_witness :
    recordAudio 10000 true (.threw "host missing") [] =
      .settled 0 (.error "Failed to connect to native host: host missing") :=
  recordAudio_rejection_passthrough 10000 true (.threw "host missing") [] 0
    "Failed to connect to native host: host missing" (by rfl) (by decide)

/-- Claim C3, counterexample: `recordAudio` does not short-circuit on a cached
negative availability.  Starting from an instance whose `checkAvailability`
already cached `false` (one probe, one connection), a record call still
attempts a new connection (the connection counter rises to 2) and simply
returns whatever the backend yields — here a successful recording, not a
`success := false` short-circuit. -/
theorem recordAudio_no_short_circuit_counterexample :
    (recordAudioCall { isAvailable := some false, probes := 1, connections := 1 } 5000 false .ok
        [(100, .message { success := true, audioBase64 := some "QUJD",
                          format := some "wav", error := none })]).2 =
      .settled 100 (.ok { success := true, audioBase64 := some "QUJD",
                          format := some "wav", error := none }) ∧
    (recordAudioCall { isAvailable := some false, probes := 1, connections := 1 } 5000 false .ok
        [(100, .message { success := true, audioBase64 := some "QUJD",
                          format := some "wav", error := none })]).1.connections = 2 :=
  ⟨rfl, rfl⟩

/-- Claim C3, amended: `recordAudio` never consults the cached availability
flag.  A record call always makes exactly one new connection attempt, leaves
the cached flag unchanged, and its result is independent of the instance
state — even after `checkAvailable()` returned `false`; short-circuiting is
left to callers of the recorder. -/
theorem recordAudioCall_ignores_cache (s : RecorderState) (durationMs : Nat)
    (encodeMp3 : Bool) (conn : ConnectResult)
    (events : List (Nat × PortEvent NativeRecordingResponse)) :
    (recordAudioCall s durationMs encodeMp3 conn events).1.connections = s.connections + 1 ∧
    (recordAudioCall s durationMs encodeMp3 conn events).1.isAvailable = s.isAvailable ∧
    (recordAudioCall s durationMs encodeMp3 conn events).2 =
      recordAudio durationMs encodeMp3 conn events :=
  ⟨rfl, rfl, rfl⟩

/-- Auxiliary: once the availability flag is cached, one more completed
`checkAvailability` call returns the cached boolean and performs no state
change (no probe, no connection). -/
theorem checkAvailability_of_cached (s : RecorderState) (b : Bool)
    (p : Except String NativePingResponse) (hc : s.isAvailable = some b) :
    checkAvailability s p = (s, b) := by
  unfold checkAvailability
  rw [hc]

/-- Auxiliary: once the availability flag is cached, any sequence of completed
`checkAvailability` calls leaves the state untouched and returns the cached
boolean every time. -/
theorem runChecks_of_cached (ps : List (Except String NativePingResponse))
    (s : RecorderState) (b : Bool) (hc : s.isAvailable = some b) :
    runChecks s ps = (s, List.replicate ps.length b) := by
  induction ps with
  | nil => rfl
  | cons p ps ih =>
    simp only [runChecks, checkAvailability_of_cached s b p hc, ih, List.length_cons,
      List.replicate_succ]

/-- Auxiliary: a completed first probe caches a boolean. -/
theorem checkAvailability_probes (s : RecorderState)
    (p : Except String NativePingResponse) (hn : s.isAvailable = none) :
    (checkAvailability s p).1.isAvailable = some (checkAvailability s p).2 ∧
    (checkAvailability s p).1.probes = s.probes + 1 := by
  unfold checkAvailability
  rw [hn]
  cases p <;> simp

/-- Claim C5: the availability result is cached.  Once `_isAvailable` holds a
boolean, a further completed `checkAvailability` call returns that boolean with
the instance state unchanged (no probe, no connection), any sequence of further
calls likewise, and — for every starting state, hence in particular a fresh
instance — an arbitrary sequence of completed calls performs at most one probe
beyond those already recorded. -/
theorem checkAvailability_cached_single_probe (s : RecorderState) (b : Bool)
    (p : Except String NativePingResponse) (ps : List (Except String NativePingResponse))
    (hc : s.isAvailable = some b) :
    checkAvailability s p = (s, b) ∧
    runChecks s ps = (s, List.replicate ps.length b) ∧
    (∀ s0 : RecorderState, ∀ qs : List (Except String NativePingResponse),
      (runChecks s0 qs).1.probes ≤ s0.probes + 1) := by
  refine ⟨checkAvailability_of_cached s b p hc, runChecks_of_cached ps s b hc, ?_⟩
  intro s0 qs
  induction qs generalizing s0 with
  | nil => exact Nat.le_succ _
  | cons q qs ih =>
    show (runChecks (checkAvailability s0 q).1 qs).1.probes ≤ s0.probes + 1
    cases hav : s0.isAvailable with
    | some b0 =>
      rw [checkAvailability_of_cached s0 b0 q hav,
        runChecks_of_cached qs s0 b0 hav]
      exact Nat.le_succ _
    | none =>
      obtain ⟨hcache, hcount⟩ := checkAvailability_probes s0 q hav
      rw [runChecks_of_cached qs (checkAvailability s0 q).1 (checkAvailability s0 q).2 hcache,
        hcount]

/-- Claim C5, witness: a recorder that cached `false` after its single probe
answers two further completed calls from the cache, and runs from a fresh
instance perform at most one probe. -/
theorem checkAvailability_cached_single_probe_witness :
    checkAvailability { isAvailable := some false, probes := 1, connections := 1 }
        (.ok { success := true, message := none, audioSystem := some "pipewire", error := none }) =
      ({ isAvailable := some false, probes := 1, connections := 1 }, false) ∧
    runChecks { isAvailable := some false, probes := 1, connections := 1 }
        [.error "Native host response timeout",
         .ok { success := true, message := none, audioSystem := some "pipewire", error := none }] =
      ({ isAvailable := some false, probes := 1, connections := 1 }, List.replicate 2 false) ∧
    (∀ s0 : RecorderState, ∀ qs : List (Except String NativePingResponse),
      (runChecks s0 qs).1.probes ≤ s0.probes + 1) :=
  checkAvailability_cached_single_probe
    { isAvailable := some false, probes := 1, connections := 1 } false
    (.ok { success := true, message := none, audioSystem := some "pipewire", error := none })
    [.error "Native host response timeout",
     .ok { success := true, message := none, audioSystem := some "pipewire", error := none }]
    (by rfl)

/-- Claim C7, counterexample: a ping connection attempt is NOT always settled
within 60 seconds.  A disconnection without a platform error at 1 ms — a
well-formed port scenario — clears the 60-second timer without resolving or
rejecting, so the call remains pending forever. -/
theorem ping_hangs_counterexample :
    ping .ok [(1, .disconnect none)] = .pending ∧
    noEventAfterDisconnect
      [((1 : Nat), (PortEvent.disconnect none : PortEvent NativePingResponse))] = true :=
  ⟨rfl, rfl⟩

/-- Auxiliary: while the 60000 ms timer is armed, a well-formed port scenario
settles the promise no later than 60000 ms, if it settles at all. -/
theorem settleFromEvents_le_60000 {α : Type} (events : List (Nat × PortEvent α))
    (hwf : noEventAfterDisconnect events = true) (t : Nat) (r : Except String α)
    (hst : settleFromEvents events true = .settled t r) : t ≤ 60000 := by
  induction events with
  | nil =>
    simp only [settleFromEvents, if_pos] at hst
    cases hst
    exact Nat.le_refl _
  | cons ev rest ih =>
    obtain ⟨te, e⟩ := ev
    by_cases h60 : 60000 < te
    · rw [show settleFromEvents ((te, e) :: rest) true =
          .settled 60000 (.error "Native host response timeout") by
        unfold settleFromEvents
        rw [if_pos ⟨rfl, h60⟩]] at hst
      cases hst
      exact Nat.le_refl _
    · simp only [settleFromEvents, h60, and_false, if_false, if_neg, not_false_iff,
        false_and] at hst
      cases e with
      | message r0 =>
        cases hst
        exact Nat.le_of_not_lt h60
      | disconnect oe =>
        cases oe with
        | some msg =>
          cases hst
          exact Nat.le_of_not_lt h60
        | none =>
          have hrest : rest = [] := by
            simpa [noEventAfterDisconnect, List.isEmpty_iff] using hwf
          subst hrest
          simp [settleFromEvents] at hst

/-- Claim C7, amended: every `checkAvailable()`/`ping` connection attempt
either settles within 60000 ms of connecting (response, transport error, or
the hard-timeout rejection) or never settles at all: the 60-second timer
bounds the call only while armed, and a disconnection without a platform error
before any response cancels the timer and leaves the call pending forever. -/
theorem ping_settles_within_60s_or_never (conn : ConnectResult)
    (events : List (Nat × PortEvent NativePingResponse))
    (t : Nat) (r : Except String NativePingResponse)
    (hwf : noEventAfterDisconnect events = true)
    (hst : ping conn events = .settled t r) : t ≤ 60000 := by
  cases conn with
  | threw e =>
    cases hst
    exact Nat.zero_le _
  | ok => exact settleFromEvents_le_60000 events hwf t r hst

/-- Claim C7, witness for the amended theorem: with no port event at all, the
hard timeout rejects the ping at exactly 60000 ms. -/
theorem ping_settles_within_60s_or_never_witness :
    ping .ok [] = .settled 60000 (.error "Native host response timeout") ∧ 60000 ≤ 60000 :=
  ⟨rfl, ping_settles_within_60s_or_never .ok [] 60000
    (.error "Native host response timeout") (by rfl) (by rfl)⟩

/-- Claim C8, counterexample: a disconnection without a platform-reported
error BEFORE any reply is not treated as a failure.  The claim requires such a
disconnect to yield a failure; instead `sendMessage` clears the timer in the
`onDisconnect` listener and neither resolves nor rejects, so the record call
stays pending forever — no failure result is ever produced. -/
theorem disconnect_before_reply_counterexample :
    sendMessage ⟨"record", some 5000, some false⟩ .ok
      [((5 : Nat), (PortEvent.disconnect none : PortEvent NativeRecordingResponse))] =
    .pending := rfl

/-- Claim C8, amended: a disconnection without a platform-reported error is
never treated as a failure, whether or not a reply was delivered.  After a
reply it is benign — the already-delivered response stands as the result —
and before any reply the 60-second timer is cancelled and the call simply
never settles, rather than failing. -/
theorem disconnect_no_error_semantics (r : NativeRecordingResponse)
    (msg : RequestMessage) (t1 t2 td : Nat)
    (h1 : t1 ≤ 60000) (hd : td ≤ 60000) :
    sendMessage msg .ok [(t1, .message r), (t2, .disconnect none)] = .settled t1 (.ok r) ∧
    sendMessage msg .ok [(td, (.disconnect none : PortEvent NativeRecordingResponse))] =
      .pending := by
  constructor
  · simp [sendMessage, settleFromEvents, Nat.not_lt.mpr h1]
  · simp [sendMessage, settleFromEvents, Nat.not_lt.mpr hd]

/-- Claim C8, witness for the amended theorem at concrete times. -/
theorem disconnect_no_error_semantics_witness :
    sendMessage ⟨"record", some 3000, some false⟩ .ok
        [((4000 : Nat), PortEvent.message
            ({ success := true, audioBase64 := some "UVdF",
               format := some "wav", error := none } : NativeRecordingResponse)),
         (4100, .disconnect none)] =
      .settled 4000 (.ok { success := true, audioBase64 := some "UVdF",
                           format := some "wav", error := none }) ∧
    sendMessage ⟨"record", some 3000, some false⟩ .ok
        [((7 : Nat), (PortEvent.disconnect none : PortEvent NativeRecordingResponse))] =
      .pending :=
  disconnect_no_error_semantics
    { success := true, audioBase64 := some "UVdF", format := some "wav", error := none }
    ⟨"record", some 3000, some false⟩ 4000 4100 7 (by decide) (by decide)

/-- Claim C9: `getNativeAudioRecorder` is idempotent.  From the fresh module
state (`nativeAudioRecorder = null`, next fresh id `c`), `n + 1` successive
calls all return the identical instance `c` created by the first call, and the
module state after them stores exactly that instance — so all callers in the
process share one instance and hence its cached `_isAvailable` state. -/
theorem getNativeAudioRecorder_idempotent (c : Nat) (n : Nat) :
    (runGets { stored := none, nextId := c } (n + 1)).2 = List.replicate (n + 1) c ∧
    (runGets { stored := none, nextId := c } (n + 1)).1 =
      { stored := some c, nextId := c + 1 } := by
  have hcached : ∀ m : Nat, ∀ g : ModuleState, ∀ r : Nat, g.stored = some r →
      runGets g m = (g, List.replicate m r) := by
    intro m
    induction m with
    | zero => intro g r _; rfl
    | succ k ih =>
      intro g r hg
      have hget : getNativeAudioRecorder g = (g, r) := by
        unfold getNativeAudioRecorder
        rw [hg]
      simp only [runGets, hget, ih g r hg, List.replicate_succ]
  have h1 : getNativeAudioRecorder { stored := none, nextId := c } =
      ({ stored := some c, nextId := c + 1 }, c) := rfl
  constructor
  · simp only [runGets, h1, hcached n { stored := some c, nextId := c + 1 } c rfl,
      List.replicate_succ]
  · simp only [runGets, h1, hcached n { stored := some c, nextId := c + 1 } c rfl]

/-- Claim C10: on the non-Firefox (Chrome) build variant, `SidebarService.isOpen`
returns `false` regardless of the actual panel state and makes no platform
call, and `SidebarService.toggle` always throws; on the Firefox variant both
delegate to the platform `sidebarAction` API. -/
theorem sidebarService_platform_variants (panelActuallyOpen : Bool) :
    SidebarService.isOpen false panelActuallyOpen = ([], false) ∧
    SidebarService.toggle false =
      ([], .error "Chrome toggle should be handled by toggle-side-panel-handler") ∧
    SidebarService.isOpen true panelActuallyOpen =
      ([.sidebarActionIsOpen], panelActuallyOpen) ∧
    SidebarService.toggle true = ([.sidebarActionToggle], .ok ()) := by
  refine ⟨rfl, rfl, rfl, rfl⟩

end Asb
